import Mathlib

/-!
Verification development for the AI-Powered Rehab Exercise Analyzer.

The repository's machine-learning pipeline (feature extraction, data
collection, model training, model registry) lives in backend Python
modules (`feature_extractor.py`, `model_trainer.py`, `data_collector.py`)
that are not part of the available sources; only the training guide and
the specification describe them.  Those components are therefore
modelled from the specification, as flagged in each doc comment.  The
frontend API client and the analysis page are present in the sources and
are embedded directly from the TypeScript.

All numeric quantities are modelled with rationals so that every
definition is executable and every predicate decidable.
-/

namespace RehabAnalyzer

/-- Mean of a list of rationals; the empty list has mean 0.  Used both for
feature aggregation across frames (where the spec lets single-frame
velocity series default to zero) and for dataset statistics. -/
def meanQ (xs : List ℚ) : ℚ :=
  if xs.isEmpty then 0 else xs.sum / xs.length

/-- Minimum of a list of rationals, 0 for the empty list. -/
def minQ : List ℚ → ℚ
  | [] => 0
  | x :: xs => xs.foldl min x

/-- Maximum of a list of rationals, 0 for the empty list. -/
def maxQ : List ℚ → ℚ
  | [] => 0
  | x :: xs => xs.foldl max x

/-- Differences between consecutive elements of a series; fewer than two
elements yield the empty list. -/
def diffs : List ℚ → List ℚ
  | a :: b :: rest => (b - a) :: diffs (b :: rest)
  | _ => []

/-- Lookup in an association list keyed by strings (first match wins). -/
def lookupAL {α : Type} : List (String × α) → String → Option α
  | [], _ => none
  | (k, v) :: rest, key => if k = key then some v else lookupAL rest key

/-- Insert-or-replace in an association list keyed by strings. -/
def insertAL {α : Type} : List (String × α) → String → α → List (String × α)
  | [], key, v => [(key, v)]
  | (k, w) :: rest, key, v =>
      if k = key then (key, v) :: rest else (k, w) :: insertAL rest key v

/-- Modelled from the spec: a pose landmark as produced by the external
pose estimator — spatial position plus a visibility/confidence value
(the pose-estimation backend module is not among the available sources). -/
structure Landmark where
  x : ℚ
  y : ℚ
  z : ℚ
  visibility : ℚ
deriving DecidableEq, Repr

/-- Modelled from the spec: one video frame's landmarks, a mapping from
landmark name to its estimated position and visibility. -/
def LandmarkFrame : Type := List (String × Landmark)

instance : DecidableEq LandmarkFrame := by
  unfold LandmarkFrame
  infer_instance

/-- Modelled from the spec: the kind of an engineered feature — a joint
angle aggregate, an angle-derived velocity aggregate, or a left/right
symmetry measure.  (`feature_extractor.py` is not among the sources.) -/
inductive FeatureKind
  | angle
  | velocity
  | symmetry
deriving DecidableEq, Repr

/-- Modelled from the spec: a named numeric feature of a feature vector. -/
structure Feature where
  kind : FeatureKind
  name : String
  value : ℚ
deriving DecidableEq, Repr

/-- Shape of a feature: its kind and name, i.e. its place in the schema
with the numeric value forgotten. -/
def featureShape (f : Feature) : FeatureKind × String :=
  (f.kind, f.name)

/-- Modelled from the spec: a three-point joint-angle specification — the
feature name and the three landmark names whose geometry defines the
angle (e.g. shoulder–elbow–wrist for the elbow angle). -/
structure AngleSpec where
  name : String
  a : String
  b : String
  c : String
deriving DecidableEq, Repr

/-- Modelled from the spec: a left/right symmetry pair — the feature name
and the two corresponding landmark names whose positional difference is
the alignment measure. -/
structure SymPair where
  name : String
  l : String
  r : String
deriving DecidableEq, Repr

/-- Modelled from the spec: the enumerated exercise identifiers the
pipeline supports. -/
def supportedExercises : List String :=
  ["pull_up", "push_up", "squat", "deadlift", "plank"]

/-- Modelled from the spec: the joint-angle specifications shared by all
exercises — elbows, shoulders, hips, knees on both sides, plus torso. -/
def baseAngleSpecs : List AngleSpec :=
  [⟨"left_elbow_angle", "left_shoulder", "left_elbow", "left_wrist"⟩,
   ⟨"right_elbow_angle", "right_shoulder", "right_elbow", "right_wrist"⟩,
   ⟨"left_shoulder_angle", "left_elbow", "left_shoulder", "left_hip"⟩,
   ⟨"right_shoulder_angle", "right_elbow", "right_shoulder", "right_hip"⟩,
   ⟨"left_hip_angle", "left_shoulder", "left_hip", "left_knee"⟩,
   ⟨"right_hip_angle", "right_shoulder", "right_hip", "right_knee"⟩,
   ⟨"left_knee_angle", "left_hip", "left_knee", "left_ankle"⟩,
   ⟨"right_knee_angle", "right_hip", "right_knee", "right_ankle"⟩,
   ⟨"torso_angle", "nose", "left_hip", "left_knee"⟩]

/-- Modelled from the spec: the per-exercise feature schema's angle part —
the shared joint angles plus one exercise-specific derived angle; an
unknown exercise type has no schema. -/
def angleSpecs (et : String) : List AngleSpec :=
  if et = "pull_up" then
    baseAngleSpecs ++ [⟨"grip_width_angle", "left_wrist", "nose", "right_wrist"⟩]
  else if et = "push_up" then
    baseAngleSpecs ++ [⟨"body_line_angle", "left_shoulder", "left_hip", "left_ankle"⟩]
  else if et = "squat" then
    baseAngleSpecs ++ [⟨"squat_depth_angle", "left_knee", "left_hip", "right_knee"⟩]
  else if et = "deadlift" then
    baseAngleSpecs ++ [⟨"hip_hinge_angle", "nose", "left_hip", "left_ankle"⟩]
  else if et = "plank" then
    baseAngleSpecs ++ [⟨"plank_line_angle", "nose", "left_hip", "left_ankle"⟩]
  else []

/-- Modelled from the spec: the left/right alignment pairs of the schema;
empty for an unknown exercise type. -/
def symPairs (et : String) : List SymPair :=
  if supportedExercises.contains et then
    [⟨"shoulder", "left_shoulder", "right_shoulder"⟩,
     ⟨"hip", "left_hip", "right_hip"⟩,
     ⟨"knee", "left_knee", "right_knee"⟩,
     ⟨"ankle", "left_ankle", "right_ankle"⟩]
  else []

/-- Modelled from the spec: the landmark names a frame must supply with
sufficient visibility for the given exercise type. -/
def requiredLandmarks (et : String) : List String :=
  (angleSpecs et).map (·.a) ++ (angleSpecs et).map (·.b) ++
    (angleSpecs et).map (·.c) ++
    (symPairs et).map (·.l) ++ (symPairs et).map (·.r)

/-- Modelled from the spec: the configured visibility threshold below
which a required landmark counts as missing/low-confidence. -/
def visibilityThreshold : ℚ := 1 / 2

/-- Modelled from the spec: the joint-angle measure from three-point
geometry.  The transcendental arc-cosine of the true angle is represented
by the rational dot-product form of the two limb vectors; no claim
constrains the numeric angle values, only the shape of the vector. -/
def angleAt (fr : LandmarkFrame) (sp : AngleSpec) : ℚ :=
  match lookupAL fr sp.a, lookupAL fr sp.b, lookupAL fr sp.c with
  | some pa, some pb, some pc =>
      (pa.x - pb.x) * (pc.x - pb.x) + (pa.y - pb.y) * (pc.y - pb.y) +
        (pa.z - pb.z) * (pc.z - pb.z)
  | _, _, _ => 0

/-- Modelled from the spec: the left/right alignment deviation of a
symmetry pair in one frame — the absolute positional difference of the
two corresponding landmarks. -/
def symAt (fr : LandmarkFrame) (sp : SymPair) : ℚ :=
  match lookupAL fr sp.l, lookupAL fr sp.r with
  | some pl, some pr => |pl.x - pr.x| + |pl.y - pr.y| + |pl.z - pr.z|
  | _, _ => 0

/-- Per-frame series of one angle feature across the clip. -/
def angleSeries (frames : List LandmarkFrame) (sp : AngleSpec) : List ℚ :=
  frames.map (fun fr => angleAt fr sp)

/-- Per-frame series of one symmetry feature across the clip. -/
def symSeries (frames : List LandmarkFrame) (sp : SymPair) : List ℚ :=
  frames.map (fun fr => symAt fr sp)

/-- Modelled from the spec: whether every frame supplies every required
landmark with visibility at or above the configured threshold. -/
def landmarksValid (frames : List LandmarkFrame) (et : String) : Bool :=
  frames.all (fun fr =>
    (requiredLandmarks et).all (fun nm =>
      match lookupAL fr nm with
      | some lm => visibilityThreshold ≤ lm.visibility
      | none => false))

/-- Modelled from the spec: the feature extractor's failure modes. -/
inductive ExtractError
  | insufficientLandmarks
  | unsupportedExercise
deriving DecidableEq, Repr

/-- Modelled from the spec: the engineered feature vector — per joint
angle its min/max/mean across frames and the mean and max of its
frame-to-frame velocity (aggregates of an empty velocity series are 0,
so single-frame input yields zero velocities), followed by the mean
alignment deviation of each symmetry pair.  Aggregation keeps the
ordering and count independent of the clip length. -/
def extractFeatures (frames : List LandmarkFrame) (et : String) : List Feature :=
  (angleSpecs et).map (fun sp =>
      ⟨.angle, sp.name ++ "_min", minQ (angleSeries frames sp)⟩) ++
  (angleSpecs et).map (fun sp =>
      ⟨.angle, sp.name ++ "_max", maxQ (angleSeries frames sp)⟩) ++
  (angleSpecs et).map (fun sp =>
      ⟨.angle, sp.name ++ "_mean", meanQ (angleSeries frames sp)⟩) ++
  (angleSpecs et).map (fun sp =>
      ⟨.velocity, sp.name ++ "_velocity_mean", meanQ (diffs (angleSeries frames sp))⟩) ++
  (angleSpecs et).map (fun sp =>
      ⟨.velocity, sp.name ++ "_velocity_max", maxQ (diffs (angleSeries frames sp))⟩) ++
  (symPairs et).map (fun sp =>
      ⟨.symmetry, sp.name ++ "_alignment_mean", meanQ (symSeries frames sp)⟩)

/-- The feature schema of an exercise type: the ordered kinds and names
the extractor produces, independent of any input frames. -/
def schema (et : String) : List (FeatureKind × String) :=
  (angleSpecs et).map (fun sp => (.angle, sp.name ++ "_min")) ++
  (angleSpecs et).map (fun sp => (.angle, sp.name ++ "_max")) ++
  (angleSpecs et).map (fun sp => (.angle, sp.name ++ "_mean")) ++
  (angleSpecs et).map (fun sp => (.velocity, sp.name ++ "_velocity_mean")) ++
  (angleSpecs et).map (fun sp => (.velocity, sp.name ++ "_velocity_max")) ++
  (symPairs et).map (fun sp => (.symmetry, sp.name ++ "_alignment_mean"))

/-- The fixed dimensionality of the feature schema for an exercise type. -/
def featureDim (et : String) : Nat :=
  (schema et).length

/-- Modelled from the spec: `extract(landmark_sequence, exercise_type)` —
fails on an unknown exercise type, on an empty sequence, or when required
landmarks are missing/low-confidence; otherwise produces the engineered
feature vector.  (`feature_extractor.py` is not among the sources.) -/
def extract (frames : List LandmarkFrame) (et : String) :
    Except ExtractError (List Feature) :=
  if supportedExercises.contains et then
    if frames.isEmpty then .error .insufficientLandmarks
    else if landmarksValid frames et then .ok (extractFeatures frames et)
    else .error .insufficientLandmarks
  else .error .unsupportedExercise

/-- Modelled from the spec: a labelled training example — feature vector,
label score in [0, 100] and optional free-text feedback.
(`data_collector.py` is not among the sources.) -/
structure TrainingExample where
  featureVector : List ℚ
  labelScore : ℚ
  feedbackText : Option String
deriving DecidableEq, Repr

/-- Modelled from the spec: the fitted regression parameters.  Both
off-the-shelf families (random forest, gradient boosting) are opaque
collaborators whose predictions no claim constrains; the fit is
summarised as the constant regressor at the mean training label. -/
inductive RegParams
  | constant (c : ℚ)
deriving DecidableEq, Repr

/-- Raw (unclamped) model output for a scaled feature vector. -/
def rawPredict : RegParams → List ℚ → ℚ
  | .constant c, _ => c

/-- Modelled from the spec: a persisted trained model — exercise type,
model family, fitted parameters and per-feature scaling parameters. -/
structure TrainedModel where
  exerciseType : String
  modelFamily : String
  params : RegParams
  scalerShift : List ℚ
  scalerScale : List ℚ
deriving DecidableEq, Repr

/-- Modelled from the spec: the persisted per-exercise state — one
append-only dataset and at most one active model per exercise type. -/
structure MLState where
  datasets : List (String × List TrainingExample)
  models : List (String × TrainedModel)
deriving DecidableEq, Repr

/-- The state with no recorded data and no persisted models. -/
def emptyState : MLState :=
  ⟨[], []⟩

/-- Dataset currently stored for an exercise type (empty if none). -/
def lookupDS (st : MLState) (et : String) : List TrainingExample :=
  (lookupAL st.datasets et).getD []

/-- Model currently persisted for an exercise type, if any. -/
def lookupModel (st : MLState) (et : String) : Option TrainedModel :=
  lookupAL st.models et

/-- Modelled from the spec: the data collector's validation failure
modes. -/
inductive CollectError
  | invalidScore (s : ℚ)
  | schemaMismatch (got expected : Nat)
deriving DecidableEq, Repr

/-- Modelled from the spec: `record_feedback` — validates the score is in
[0, 100] and the vector length matches the current schema, then appends
the example to the exercise's dataset and returns its record id; a
rejected call stores nothing. -/
def record_feedback (st : MLState) (et : String) (v : List ℚ) (score : ℚ)
    (fb : Option String) : Except CollectError Nat × MLState :=
  if score < 0 ∨ 100 < score then (.error (.invalidScore score), st)
  else if v.length ≠ featureDim et then
    (.error (.schemaMismatch v.length (featureDim et)), st)
  else
    let ds := lookupDS st et
    (.ok ds.length,
     { st with datasets := insertAL st.datasets et (ds ++ [⟨v, score, fb⟩]) })

/-- Modelled from the spec: the statistics summary over a dataset.  The
standard deviation is represented by its square, the variance, since the
square root of a rational is irrational in general and no claim
constrains its value. -/
structure Stats where
  count : Nat
  avg_score : Option ℚ
  min_score : Option ℚ
  max_score : Option ℚ
  std_score : Option ℚ
deriving DecidableEq, Repr

/-- Variance of a list of rationals (0 for the empty list). -/
def varQ (xs : List ℚ) : ℚ :=
  meanQ (xs.map (fun x => (x - meanQ xs) * (x - meanQ xs)))

/-- Modelled from the spec: `get_statistics` — count/avg/min/max/std over
the stored examples; an empty dataset yields a no-data result, not an
error. -/
def get_statistics (st : MLState) (et : String) : Stats :=
  let scores := (lookupDS st et).map (·.labelScore)
  if scores.isEmpty then ⟨0, none, none, none, none⟩
  else ⟨scores.length, some (meanQ scores), some (minQ scores),
        some (maxQ scores), some (varQ scores)⟩

/-- Modelled from the spec: the configured minimum number of examples
required before training (recommended minimum 10). -/
def minTrainingExamples : Nat := 10

/-- Modelled from the spec: the model trainer's failure modes, the
data-sufficiency error carrying the current count and the threshold. -/
inductive TrainError
  | insufficientData (count threshold : Nat)
  | trainingFailed
deriving DecidableEq, Repr

/-- Modelled from the spec: the training report returned by `train`. -/
structure TrainingReport where
  exercise_type : String
  model_family : String
  training_sample_count : Nat
  test_sample_count : Nat
  test_r2 : ℚ
  test_rmse : ℚ
deriving DecidableEq, Repr

/-- Modelled from the spec: the deterministic 80/20 split of the dataset
into train and test partitions, stratified only by arrival order — the
first four fifths train, the remaining fifth tests, so no example is
duplicated across the partitions. -/
def splitDataset (ds : List TrainingExample) :
    List TrainingExample × List TrainingExample :=
  (ds.take (ds.length - ds.length / 5), ds.drop (ds.length - ds.length / 5))

/-- Modelled from the spec: a degenerate feature matrix — one whose rows
do not all have the schema's dimensionality — makes the numerical fit
fail. -/
def degenerateMatrix (rows : List (List ℚ)) (dim : Nat) : Bool :=
  rows.any (fun row => row.length ≠ dim)

/-- The value of feature `j` across all rows of a feature matrix. -/
def column (rows : List (List ℚ)) (j : Nat) : List ℚ :=
  rows.map (fun row => row.getD j 0)

/-- Modelled from the spec: per-feature scaling parameters fitted on the
train partition only — each feature's mean as the shift, its value range
as the scale (1 when the range is zero). -/
def fitScaler (rows : List (List ℚ)) (dim : Nat) : List ℚ × List ℚ :=
  ((List.range dim).map (fun j => meanQ (column rows j)),
   (List.range dim).map (fun j =>
     let w := maxQ (column rows j) - minQ (column rows j)
     if w = 0 then 1 else w))

/-- Apply fitted scaling parameters to one feature vector. -/
def applyScaler (shift scale v : List ℚ) : List ℚ :=
  (v.zip (shift.zip scale)).map (fun p => (p.1 - p.2.1) / p.2.2)

/-- Modelled from the spec: fitting the chosen regression family on the
scaled train features against the label scores; summarised as the
constant regressor at the mean label (the ensemble internals are opaque
collaborators and no claim constrains their predictions). -/
def fitModel (fam : String) (rows : List (List ℚ)) (y : List ℚ) : RegParams :=
  let _ := fam
  let _ := rows
  .constant (meanQ y)

/-- Coefficient of determination of predictions against true labels, with
a zero total sum of squares yielding 0. -/
def r2Score (yTrue yPred : List ℚ) : ℚ :=
  let ssRes := ((yTrue.zip yPred).map (fun p => (p.1 - p.2) * (p.1 - p.2))).sum
  let ssTot := (yTrue.map (fun y => (y - meanQ yTrue) * (y - meanQ yTrue))).sum
  if ssTot = 0 then 0 else 1 - ssRes / ssTot

/-- Root-mean-squared error, represented by its square (the mean squared
error), since the square root of a rational is irrational in general and
no claim constrains its value. -/
def rmseScore (yTrue yPred : List ℚ) : ℚ :=
  meanQ ((yTrue.zip yPred).map (fun p => (p.1 - p.2) * (p.1 - p.2)))

/-- Modelled from the spec: `train(exercise_type, model_family)` — fails
with the data-sufficiency error below the configured minimum; splits
80/20 by arrival order; fits the scaler on the train partition only and
the regressor on the scaled train features; evaluates on the test
partition; on success atomically replaces the persisted model for the
exercise type; on any failure leaves the state untouched.
(`model_trainer.py` is not among the sources.) -/
def train (st : MLState) (et : String) (fam : String) :
    Except TrainError TrainingReport × MLState :=
  let ds := lookupDS st et
  if ds.length < minTrainingExamples then
    (.error (.insufficientData ds.length minTrainingExamples), st)
  else
    let parts := splitDataset ds
    let trainX := parts.1.map (·.featureVector)
    let trainY := parts.1.map (·.labelScore)
    if degenerateMatrix trainX (featureDim et) then
      (.error .trainingFailed, st)
    else
      let scaler := fitScaler trainX (featureDim et)
      let params := fitModel fam (trainX.map (applyScaler scaler.1 scaler.2)) trainY
      let testX := parts.2.map (·.featureVector)
      let testY := parts.2.map (·.labelScore)
      let testPred := testX.map (fun row => rawPredict params (applyScaler scaler.1 scaler.2 row))
      let model : TrainedModel := ⟨et, fam, params, scaler.1, scaler.2⟩
      (.ok ⟨et, fam, parts.1.length, parts.2.length,
            r2Score testY testPred, rmseScore testY testPred⟩,
       { st with models := insertAL st.models et model })

/-- Modelled from the spec: `has_model(exercise_type)`. -/
def has_model (st : MLState) (et : String) : Bool :=
  (lookupModel st et).isSome

/-- Modelled from the spec: the predictor's failure modes — the absence
of a model, distinguishable from a validation error. -/
inductive PredictError
  | modelNotFound
  | schemaMismatch (got expected : Nat)
deriving DecidableEq, Repr

/-- Clamp a raw regression output into [0, 100]. -/
def clampScore (x : ℚ) : ℚ :=
  max 0 (min 100 x)

/-- Modelled from the spec: `predict(exercise_type, feature_vector)` —
fails with the model-not-found error when no model is persisted;
otherwise applies the persisted scaler, then the persisted model, and
clamps the output to [0, 100] before returning. -/
def predict (st : MLState) (et : String) (v : List ℚ) : Except PredictError ℚ :=
  match lookupModel st et with
  | none => .error .modelNotFound
  | some m =>
      if v.length ≠ featureDim et then
        .error (.schemaMismatch v.length (featureDim et))
      else
        .ok (clampScore (rawPredict m.params (applyScaler m.scalerShift m.scalerScale v)))

/-! Frontend API client, embedded from `services/api` (src/unnamed/part_004). -/

/-- An exercise entry returned by the backend, as in the `Exercise`
interface of the API client. -/
structure Exercise where
  id : String
  name : String
  description : String
  difficulty : String
deriving DecidableEq, Repr

/-- The analysis payload seen by the frontend, as in the
`AnalysisResult` interface. -/
structure AnalysisOutcome where
  success : Bool
  exercise_type : Option String
  score : Option ℚ
  feedback : List String
  frame_count : Option Nat
  error : Option String
deriving DecidableEq, Repr

/-- Exercise tips payload, as in the `ExerciseTips` interface. -/
structure ExerciseTips where
  exercise_id : String
  tips : List String
deriving DecidableEq, Repr

/-- Outcome of the underlying HTTP request: either a decoded response
body or a failure.  An axios failure optionally carries the backend's
`error` field; any other thrown value is modelled by its message. -/
inductive HttpOutcome (α : Type)
  | ok (data : α)
  | axiosFailure (backendError : Option String)
  | otherFailure (msg : String)

/-- Whether an HTTP outcome is a failing request. -/
def HttpOutcome.failed {α : Type} : HttpOutcome α → Bool
  | .ok _ => false
  | .axiosFailure _ => true
  | .otherFailure _ => true

/-- `analyzeExercise` from the API client: returns the response data on
success; on an axios error throws the backend error message or a fixed
fallback; rethrows any other error. -/
def analyzeExercise (resp : HttpOutcome AnalysisOutcome) :
    Except String AnalysisOutcome :=
  match resp with
  | .ok data => .ok data
  | .axiosFailure be => .error (be.getD "Failed to analyze exercise")
  | .otherFailure msg => .error msg

/-- `getSupportedExercises` from the API client: returns the response
data on success; on any error logs and resolves to the empty list
instead of throwing. -/
def getSupportedExercises (resp : HttpOutcome (List Exercise)) :
    Except String (List Exercise) :=
  match resp with
  | .ok data => .ok data
  | .axiosFailure _ => .ok []
  | .otherFailure _ => .ok []

/-- `getExerciseTips` from the API client: returns the response data on
success; on an axios error throws the backend error message or a fixed
fallback; rethrows any other error. -/
def getExerciseTips (resp : HttpOutcome ExerciseTips) :
    Except String ExerciseTips :=
  match resp with
  | .ok data => .ok data
  | .axiosFailure be => .error (be.getD "Failed to fetch exercise tips")
  | .otherFailure msg => .error msg

/-! `AnalysisPage` component, embedded from
`src/frontend/src/pages/AnalysisPage.tsx`. -/

/-- A selected file as the component sees it: name, size and MIME type. -/
structure SelFile where
  name : String
  size : Nat
  mimeType : String
deriving DecidableEq, Repr

/-- The component state managed by `AnalysisPage`'s `useState` hooks. -/
structure PageState where
  file : Option SelFile
  isAnalyzing : Bool
  result : Option AnalysisOutcome
  dragActive : Bool
  exerciseType : Option String
deriving DecidableEq, Repr

/-- The `validTypes` list of `handleFileSelect`. -/
def validTypes : List String :=
  ["image/jpeg", "image/png", "image/gif", "video/mp4", "video/avi", "video/mov"]

/-- `handleFileSelect` from `AnalysisPage`: a file of an accepted MIME
type becomes the selected file and clears any previous result; any other
file leaves the state unchanged and only raises an alert, returned here
as the optional alert message. -/
def handleFileSelect (st : PageState) (f : SelFile) :
    PageState × Option String :=
  if f.mimeType ∈ validTypes then
    ({ st with file := some f, result := none }, none)
  else
    (st, some "Please select a valid video or image file (MP4, AVI, MOV, JPG, PNG, GIF)")

/-! Concrete fixtures used to instantiate the theorems below. -/

/-- The landmark names the schemas refer to. -/
def bodyLandmarkNames : List String :=
  ["nose", "left_shoulder", "right_shoulder", "left_elbow", "right_elbow",
   "left_wrist", "right_wrist", "left_hip", "right_hip", "left_knee",
   "right_knee", "left_ankle", "right_ankle"]

/-- A fully visible sample frame at time `t`: every named landmark is
present with visibility 1. -/
def sampleFrame (t : ℚ) : LandmarkFrame :=
  bodyLandmarkNames.map (fun nm => (nm, ⟨t, t + 1, 0, 1⟩))

/-- The all-zero feature vector of an exercise's dimensionality. -/
def zeroVec (et : String) : List ℚ :=
  List.replicate (featureDim et) 0

/-- A state holding exactly 9 recorded push-up feedback examples. -/
def pushUpState9 : MLState :=
  (List.range 9).foldl
    (fun st i =>
      (record_feedback st "push_up" (zeroVec "push_up") (60 + (i : ℚ)) none).2)
    emptyState

/-- A state holding exactly 20 recorded squat feedback examples with
scores in [60, 90]. -/
def squatState20 : MLState :=
  (List.range 20).foldl
    (fun st i =>
      (record_feedback st "squat" (zeroVec "squat") (60 + (i : ℚ)) none).2)
    emptyState

/-- The outcome of training the squat model on the 20-example state. -/
def squatTrainOut : Except TrainError TrainingReport × MLState :=
  train squatState20 "squat" "random_forest"

/-- A placeholder report used only to project a report out of a training
outcome. -/
def defaultReport : TrainingReport :=
  ⟨"", "", 0, 0, 0, 0⟩

/-- The report carried by a training outcome (the placeholder if it
failed). -/
def reportOf (p : Except TrainError TrainingReport × MLState) : TrainingReport :=
  p.1.toOption.getD defaultReport

/-- A previously persisted plank model. -/
def plankModel : TrainedModel :=
  ⟨"plank", "random_forest", .constant 70,
   List.replicate (featureDim "plank") 0, List.replicate (featureDim "plank") 1⟩

/-- A training example whose feature vector has the wrong length,
making the feature matrix degenerate. -/
def raggedExample : TrainingExample :=
  ⟨[0], 50, none⟩

/-- A state with a persisted plank model and ten plank examples whose
feature matrix is degenerate, so training fails numerically. -/
def raggedState : MLState :=
  ⟨[("plank", List.replicate 10 raggedExample)], [("plank", plankModel)]⟩

/-- An empty analysis-page state. -/
def emptyPage : PageState :=
  ⟨none, false, none, false, none⟩

/-- A selected file with an accepted MIME type. -/
def jpegFile : SelFile :=
  ⟨"form.jpg", 2048, "image/jpeg"⟩

/-- A selected file with a rejected MIME type. -/
def pdfFile : SelFile :=
  ⟨"form.pdf", 2048, "application/pdf"⟩

/-! Helper lemmas. -/

theorem lookupAL_insertAL_self {α : Type} (l : List (String × α)) (k : String)
    (v : α) : lookupAL (insertAL l k v) k = some v := by
  induction l with
  | nil => simp [insertAL, lookupAL]
  | cons hd tl ih =>
    obtain ⟨k', w⟩ := hd
    by_cases h : k' = k
    · simp [insertAL, lookupAL, h]
    · simp [insertAL, lookupAL, h, ih]

theorem extract_ok_val {frames : List LandmarkFrame} {et : String}
    {v : List Feature} (h : extract frames et = .ok v) :
    v = extractFeatures frames et := by
  unfold extract at h
  split at h
  · split at h
    · cases h
    · split at h
      · cases h
        rfl
      · cases h
  · cases h

theorem extract_ok_shape {frames : List LandmarkFrame} {et : String}
    {v : List Feature} (h : extract frames et = .ok v) :
    v.map featureShape = schema et := by
  rw [extract_ok_val h]
  simp [extractFeatures, schema, featureShape, List.map_append, List.map_map,
    Function.comp_def]

theorem clampScore_nonneg (x : ℚ) : 0 ≤ clampScore x :=
  le_max_left 0 _

theorem clampScore_le_100 (x : ℚ) : clampScore x ≤ 100 :=
  max_le (by norm_num) (min_le_left _ _)

theorem lookupModel_insert (st : MLState) (et : String) (m : TrainedModel) :
    lookupModel { st with models := insertAL st.models et m } et = some m :=
  lookupAL_insertAL_self st.models et m

theorem predict_some_model (st : MLState) (et : String) (m : TrainedModel)
    (v : List ℚ) (hm : lookupModel st et = some m)
    (hv : v.length = featureDim et) :
    predict st et v =
      .ok (clampScore (rawPredict m.params
        (applyScaler m.scalerShift m.scalerScale v))) := by
  unfold predict
  rw [hm]
  simp [hv]

/-! Claim theorems. -/

/-- C2: for every exercise type and every pair of non-empty landmark
sequences, successful extraction yields feature vectors of identical
length and identical feature ordering; the dimensionality is the
exercise type's fixed schema length, never a function of the clip
length. -/
theorem extract_shape_uniform (et : String) (s1 s2 : List LandmarkFrame)
    (v1 v2 : List Feature) (_h1 : s1 ≠ []) (_h2 : s2 ≠ [])
    (e1 : extract s1 et = .ok v1) (e2 : extract s2 et = .ok v2) :
    v1.map featureShape = v2.map featureShape ∧
    v1.length = v2.length ∧ v1.length = featureDim et := by
  have a1 := extract_ok_shape e1
  have a2 := extract_ok_shape e2
  refine ⟨a1.trans a2.symm, ?_, ?_⟩
  · have := congrArg List.length (a1.trans a2.symm)
    simpa using this
  · have := congrArg List.length a1
    simpa [featureDim] using this

/-- Witness for C2: two squat clips of 2 and 3 frames extract to vectors
of the same shape and of the schema's length. -/
theorem extract_shape_uniform_witness :
    (extractFeatures [sampleFrame 0, sampleFrame 1] "squat").map featureShape =
      (extractFeatures [sampleFrame 0, sampleFrame 1, sampleFrame 2] "squat").map
        featureShape ∧
    (extractFeatures [sampleFrame 0, sampleFrame 1] "squat").length =
      (extractFeatures [sampleFrame 0, sampleFrame 1, sampleFrame 2] "squat").length ∧
    (extractFeatures [sampleFrame 0, sampleFrame 1] "squat").length =
      featureDim "squat" :=
  extract_shape_uniform "squat" [sampleFrame 0, sampleFrame 1]
    [sampleFrame 0, sampleFrame 1, sampleFrame 2] _ _
    (by simp) (by simp)
    (by with_unfolding_all rfl) (by with_unfolding_all rfl)

/-- C8: on a single-frame input every velocity feature of the extracted
vector is zero. -/
theorem extract_single_frame_zero_velocity (fr : LandmarkFrame) (et : String)
    (v : List Feature) (h : extract [fr] et = .ok v) :
    ∀ f ∈ v, f.kind = FeatureKind.velocity → f.value = 0 := by
  rw [extract_ok_val h]
  intro f hf hk
  simp only [extractFeatures, List.mem_append, List.mem_map] at hf
  have hseries : ∀ sp : AngleSpec, angleSeries [fr] sp = [angleAt fr sp] := by
    intro sp
    simp [angleSeries]
  rcases hf with ((((hf | hf) | hf) | hf) | hf) | hf
  · obtain ⟨sp, _, rfl⟩ := hf
    cases hk
  · obtain ⟨sp, _, rfl⟩ := hf
    cases hk
  · obtain ⟨sp, _, rfl⟩ := hf
    cases hk
  · obtain ⟨sp, _, rfl⟩ := hf
    simp [hseries, diffs, meanQ]
  · obtain ⟨sp, _, rfl⟩ := hf
    simp [hseries, diffs, maxQ]
  · obtain ⟨sp, _, rfl⟩ := hf
    cases hk

/-- Witness for C8: a single-frame squat extraction succeeds and its
first velocity feature evaluates to zero. -/
theorem extract_single_frame_zero_velocity_witness :
    ((extractFeatures [sampleFrame 0] "squat").getD 30
      ⟨FeatureKind.velocity, "", 0⟩).value = 0 :=
  extract_single_frame_zero_velocity (sampleFrame 0) "squat" _
    (by with_unfolding_all rfl) _
    (by with_unfolding_all decide) (by with_unfolding_all decide)

/-- C1: after a successful train, the exercise has a model and predict
returns a clamped numeric score in [0, 100] for every schema-valid
feature vector. -/
theorem train_roundtrip_predict_bounded (st : MLState) (et fam : String)
    (r : TrainingReport) (st' : MLState)
    (h : train st et fam = (.ok r, st')) :
    has_model st' et = true ∧
    ∀ v : List ℚ, v.length = featureDim et →
      ∃ s, predict st' et v = .ok s ∧ 0 ≤ s ∧ s ≤ 100 := by
  simp only [train] at h
  split at h
  · cases h
  · split at h
    · cases h
    · cases h
      constructor
      · simp [has_model, lookupModel, lookupAL_insertAL_self]
      · intro v hv
        exact ⟨_, predict_some_model _ et _ v (lookupModel_insert st et _) hv,
               clampScore_nonneg _, clampScore_le_100 _⟩

/-- Witness for C1: training the 20-example squat state yields a model
and a bounded prediction on the zero vector. -/
theorem train_roundtrip_predict_bounded_witness :
    has_model squatTrainOut.2 "squat" = true ∧
    ∃ s, predict squatTrainOut.2 "squat" (zeroVec "squat") = .ok s ∧
      0 ≤ s ∧ s ≤ 100 :=
  have h := train_roundtrip_predict_bounded squatState20 "squat" "random_forest"
    (reportOf squatTrainOut) squatTrainOut.2 (by with_unfolding_all rfl)
  ⟨h.1, h.2 (zeroVec "squat") (by with_unfolding_all rfl)⟩

/-- C3: below the configured minimum number of examples, train fails
with the data-sufficiency error carrying the current count and the
threshold; in particular a 9-example push-up dataset reports count 9
against threshold 10. -/
theorem train_insufficient_data :
    (∀ st et fam, (lookupDS st et).length < minTrainingExamples →
       train st et fam =
         (.error (.insufficientData (lookupDS st et).length minTrainingExamples),
          st)) ∧
    (∀ st fam, (lookupDS st "push_up").length = 9 →
       train st "push_up" fam = (.error (.insufficientData 9 10), st)) := by
  have base : ∀ st et fam, (lookupDS st et).length < minTrainingExamples →
      train st et fam =
        (.error (.insufficientData (lookupDS st et).length minTrainingExamples),
         st) := by
    intro st et fam h
    unfold train
    rw [if_pos h]
  refine ⟨base, ?_⟩
  intro st fam h
  have := base st "push_up" fam (by rw [h]; norm_num [minTrainingExamples])
  rwa [h] at this

/-- Witness for C3: nine recorded push-up feedback examples make train
fail reporting count 9 and threshold 10. -/
theorem train_insufficient_data_witness :
    train pushUpState9 "push_up" "random_forest" =
      (.error (.insufficientData 9 10), pushUpState9) :=
  train_insufficient_data.2 pushUpState9 "random_forest"
    (by with_unfolding_all rfl)

/-- C4: the trainer's split is deterministic (it is a function of the
dataset alone), duplicates no example across the two partitions — they
concatenate back to the dataset — and is in 80/20 proportion: for every
dataset and every successful train of any exercise type, the report
counts are n - n/5 training and n/5 test samples; in particular a
successful train on a 20-example squat dataset reports 16 training and
4 test samples. -/
theorem train_split_80_20 :
    (∀ ds : List TrainingExample,
       (splitDataset ds).1 ++ (splitDataset ds).2 = ds ∧
       (splitDataset ds).1.length = ds.length - ds.length / 5 ∧
       (splitDataset ds).2.length = ds.length / 5) ∧
    (∀ st et fam r st', train st et fam = (.ok r, st') →
       r.training_sample_count =
         (lookupDS st et).length - (lookupDS st et).length / 5 ∧
       r.test_sample_count = (lookupDS st et).length / 5) ∧
    (∀ st r st', (lookupDS st "squat").length = 20 →
       train st "squat" "random_forest" = (.ok r, st') →
       r.training_sample_count = 16 ∧ r.test_sample_count = 4) := by
  have hsplit : ∀ ds : List TrainingExample,
      (splitDataset ds).1 ++ (splitDataset ds).2 = ds ∧
      (splitDataset ds).1.length = ds.length - ds.length / 5 ∧
      (splitDataset ds).2.length = ds.length / 5 := by
    intro ds
    refine ⟨List.take_append_drop _ _, ?_, ?_⟩
    · simp only [splitDataset, List.length_take]
      omega
    · simp only [splitDataset, List.length_drop]
      omega
  have hcounts : ∀ st et fam r st', train st et fam = (.ok r, st') →
      r.training_sample_count =
        (lookupDS st et).length - (lookupDS st et).length / 5 ∧
      r.test_sample_count = (lookupDS st et).length / 5 := by
    intro st et fam r st' h
    simp only [train] at h
    split at h
    · cases h
    · split at h
      · cases h
      · cases h
        exact ⟨(hsplit _).2.1, (hsplit _).2.2⟩
  refine ⟨hsplit, hcounts, ?_⟩
  intro st r st' hn h
  have hc := hcounts st "squat" "random_forest" r st' h
  rw [hn] at hc
  exact ⟨by omega, by omega⟩

/-- Witness for C4: the concrete 20-example squat state's dataset
partitions back to itself and trains with a 16/4 split. -/
theorem train_split_80_20_witness :
    (splitDataset (lookupDS squatState20 "squat")).1 ++
      (splitDataset (lookupDS squatState20 "squat")).2 =
        lookupDS squatState20 "squat" ∧
    (reportOf squatTrainOut).training_sample_count = 16 ∧
    (reportOf squatTrainOut).test_sample_count = 4 :=
  ⟨(train_split_80_20.1 (lookupDS squatState20 "squat")).1,
   train_split_80_20.2.2 squatState20 (reportOf squatTrainOut) squatTrainOut.2
     (by with_unfolding_all rfl) (by with_unfolding_all rfl)⟩

/-- C5: a score outside [0, 100] makes record_feedback fail with the
invalid-score error and store nothing — the statistics count is
unchanged. -/
theorem record_feedback_invalid_score (st : MLState) (et : String)
    (v : List ℚ) (s : ℚ) (fb : Option String) (h : s < 0 ∨ 100 < s) :
    record_feedback st et v s fb = (.error (.invalidScore s), st) ∧
    (get_statistics (record_feedback st et v s fb).2 et).count =
      (get_statistics st et).count := by
  have h1 : record_feedback st et v s fb = (.error (.invalidScore s), st) := by
    unfold record_feedback
    rw [if_pos h]
  exact ⟨h1, by rw [h1]⟩

/-- Witness for C5: a score of 150 is rejected and leaves the empty
state's statistics count at 0. -/
theorem record_feedback_invalid_score_witness :
    record_feedback emptyState "push_up" (zeroVec "push_up") 150 none =
      (.error (.invalidScore 150), emptyState) ∧
    (get_statistics
        (record_feedback emptyState "push_up" (zeroVec "push_up") 150 none).2
        "push_up").count =
      (get_statistics emptyState "push_up").count :=
  record_feedback_invalid_score emptyState "push_up" (zeroVec "push_up") 150
    none (by with_unfolding_all decide)

/-- C6: with no persisted model, predict fails with the model-not-found
error, which is a different error from the validation
(schema-mismatch) error. -/
theorem predict_model_not_found (st : MLState) (et : String) (v : List ℚ)
    (h : lookupModel st et = none) :
    predict st et v = .error .modelNotFound ∧
    ∀ g e, PredictError.modelNotFound ≠ PredictError.schemaMismatch g e := by
  constructor
  · unfold predict
    rw [h]
  · intro g e hc
    cases hc

/-- Witness for C6: predicting deadlift form before any training fails
with model-not-found. -/
theorem predict_model_not_found_witness :
    predict emptyState "deadlift" (zeroVec "deadlift") =
      .error .modelNotFound ∧
    PredictError.modelNotFound ≠ PredictError.schemaMismatch 0 0 :=
  have h := predict_model_not_found emptyState "deadlift" (zeroVec "deadlift")
    (by with_unfolding_all rfl)
  ⟨h.1, h.2 0 0⟩

/-- C7: a failed train call leaves the persisted-model state untouched —
has_model gives the same answer before and after, and predict uses the
same model as before. -/
theorem train_failure_preserves_model (st : MLState) (et fam : String)
    (e : TrainError) (st' : MLState) (h : train st et fam = (.error e, st')) :
    has_model st' et = has_model st et ∧
    ∀ v, predict st' et v = predict st et v := by
  have hst : st' = st := by
    simp only [train] at h
    split at h
    · cases h
      rfl
    · split at h
      · cases h
        rfl
      · cases h
  subst hst
  exact ⟨rfl, fun _ => rfl⟩

/-- Witness for C7: a numerically failing plank training (degenerate
feature matrix) preserves the previously persisted plank model. -/
theorem train_failure_preserves_model_witness :
    has_model (train raggedState "plank" "gradient_boosting").2 "plank" =
      has_model raggedState "plank" ∧
    predict (train raggedState "plank" "gradient_boosting").2 "plank"
        (zeroVec "plank") =
      predict raggedState "plank" (zeroVec "plank") :=
  have h := train_failure_preserves_model raggedState "plank"
    "gradient_boosting" .trainingFailed
    (train raggedState "plank" "gradient_boosting").2
    (by with_unfolding_all rfl)
  ⟨h.1, h.2 (zeroVec "plank")⟩

/-- C9: the frontend getSupportedExercises resolves every failing HTTP
request to the empty exercise list instead of throwing, while
analyzeExercise and getExerciseTips turn every failing request into a
thrown error. -/
theorem getSupportedExercises_never_throws :
    (∀ be, getSupportedExercises (.axiosFailure be) = .ok []) ∧
    (∀ m, getSupportedExercises (.otherFailure m) = .ok []) ∧
    (∀ be : Option String,
      ∃ msg, analyzeExercise (.axiosFailure be) = .error msg) ∧
    (∀ m : String, analyzeExercise (.otherFailure m) = .error m) ∧
    (∀ be : Option String,
      ∃ msg, getExerciseTips (.axiosFailure be) = .error msg) ∧
    (∀ m : String, getExerciseTips (.otherFailure m) = .error m) :=
  ⟨fun _ => rfl, fun _ => rfl,
   fun be => ⟨be.getD "Failed to analyze exercise", rfl⟩, fun _ => rfl,
   fun be => ⟨be.getD "Failed to fetch exercise tips", rfl⟩, fun _ => rfl⟩

/-- C10: the analysis page accepts exactly the six listed MIME types; an
accepted file becomes the selection and clears the previous result,
while any other file leaves the component state unchanged and only
raises the alert. -/
theorem handleFileSelect_mime_filter (st : PageState) (f : SelFile) :
    (f.mimeType ∈ validTypes →
       handleFileSelect st f =
         ({ st with file := some f, result := none }, none)) ∧
    (f.mimeType ∉ validTypes →
       handleFileSelect st f =
         (st, some "Please select a valid video or image file (MP4, AVI, MOV, JPG, PNG, GIF)")) ∧
    (∀ t : String, t ∈ validTypes ↔
       t = "image/jpeg" ∨ t = "image/png" ∨ t = "image/gif" ∨
       t = "video/mp4" ∨ t = "video/avi" ∨ t = "video/mov") := by
  refine ⟨?_, ?_, ?_⟩
  · intro h
    unfold handleFileSelect
    rw [if_pos h]
  · intro h
    unfold handleFileSelect
    rw [if_neg h]
  · intro t
    simp [validTypes]

/-- Witness for C10: a JPEG file is selected and clears the result; a
PDF file leaves the page state unchanged. -/
theorem handleFileSelect_mime_filter_witness :
    handleFileSelect emptyPage jpegFile =
      ({ emptyPage with file := some jpegFile, result := none }, none) ∧
    handleFileSelect emptyPage pdfFile =
      (emptyPage,
       some "Please select a valid video or image file (MP4, AVI, MOV, JPG, PNG, GIF)") :=
  ⟨(handleFileSelect_mime_filter emptyPage jpegFile).1 (by decide),
   (handleFileSelect_mime_filter emptyPage pdfFile).2.1 (by decide)⟩

end RehabAnalyzer
